import Mathlib

/-!
Verification of the MAvis Hospital benchmark harness
(`src/ci_benchmark.py`, `src/run_benchmark.py`).

Strings are modelled as `List Char`; each Python string operation used by the
scripts (`in`, `split`, `strip`, `replace`, `lower`, `upper`, `splitlines`,
`re.search` on the concrete patterns appearing in the source) is embedded as an
executable Lean function.  The metrics extractor `parse_output`, the bounded
runner `run_level`, the Excel task resolver `read_xlsx_tasks`, the write-back
`write_xlsx_results` with `to_number`, the orchestration loops and the report
builder are translated from the source.
-/

-- ── Python string-operation models ──────────────────────────────────────────

/-- ASCII whitespace, the portion of Python's `str.strip()` / `\s` character
class that can occur in the harness's inputs. -/
def pyIsSpace (c : Char) : Bool :=
  c = ' ' || c = '\t' || c = '\n' || c = '\r' || c = '\x0b' || c = '\x0c'

/-- Characters treated as line boundaries by Python's `str.splitlines`. -/
def isLineBreak (c : Char) : Bool :=
  c = '\n' || c = '\r' || c = '\x0b' || c = '\x0c' || c = '\x1c' || c = '\x1d' ||
  c = '\x1e' || c = '\x85' || c = '\u2028' || c = '\u2029'

/-- Worker for `pySplitlines`: `acc` is the current line, reversed. -/
def pySplitAux : List Char → List Char → List (List Char)
  | [], acc => if acc.isEmpty then [] else [acc.reverse]
  | '\r' :: '\n' :: rest, acc => acc.reverse :: pySplitAux rest []
  | c :: rest, acc =>
    if isLineBreak c then acc.reverse :: pySplitAux rest []
    else pySplitAux rest (c :: acc)

/-- Python `str.splitlines()`: split at line boundaries (treating `\r\n` as a
single boundary), with no trailing empty line for a trailing terminator. -/
def pySplitlines (s : List Char) : List (List Char) := pySplitAux s []

/-- Python `str.strip()`: remove leading and trailing whitespace. -/
def pyStrip (s : List Char) : List Char :=
  ((s.dropWhile pyIsSpace).reverse.dropWhile pyIsSpace).reverse

/-- Python `str.strip(cs)`: remove leading and trailing characters from `cs`. -/
def pyStripChars (cs : List Char) (s : List Char) : List Char :=
  ((s.dropWhile (cs.contains ·)).reverse.dropWhile (cs.contains ·)).reverse

/-- Python `str.replace(",", "")`. -/
def removeCommas (s : List Char) : List Char := s.filter (fun c => c ≠ ',')

/-- Python `str.lower()` (ASCII). -/
def pyLower (s : List Char) : List Char := s.map Char.toLower

/-- Python `str.upper()` (ASCII). -/
def pyUpper (s : List Char) : List Char := s.map Char.toUpper

/-- Split at the first occurrence of `pat`: returns the text before it and the
text after it, or `none` when `pat` does not occur. -/
def splitFirst (pat : List Char) : List Char → Option (List Char × List Char)
  | [] => if pat = [] then some ([], []) else none
  | c :: rest =>
    if pat.isPrefixOf (c :: rest) then some ([], (c :: rest).drop pat.length)
    else
      match splitFirst pat rest with
      | some (b, a) => some (c :: b, a)
      | none => none

/-- Python's `pat in s` substring test. -/
def containsSub (pat s : List Char) : Bool := (splitFirst pat s).isSome

/-- Python `s.split(pat)[1]`: the segment between the first and the second
occurrence of `pat` (to the end when `pat` occurs once).  `none` models the
`IndexError` raised when `pat` does not occur at all. -/
def pySplitSecond (pat s : List Char) : Option (List Char) :=
  match splitFirst pat s with
  | none => none
  | some (_, rest) =>
    match splitFirst pat rest with
    | none => some rest
    | some (mid, _) => some mid

-- ── Models of the `re.search` calls in `parse_output` ───────────────────────

/-- Character class `[\d,]` used by the `#Expanded:`/`#Frontier:`/`#Generated:`
patterns. -/
def isDigitComma (c : Char) : Bool := c.isDigit || c = ','

/-- `re.search(label + r"\s*([cls]+)", line)`: leftmost occurrence of `label`
followed by optional whitespace and a non-empty run of `cls` characters;
returns the captured run.  (Greediness is deterministic here because the
character classes of adjacent pieces are disjoint.) -/
def searchLabelRun (label : List Char) (cls : Char → Bool) : List Char → Option (List Char)
  | [] => none
  | c :: rest =>
    (if label.isPrefixOf (c :: rest) then
      let after := ((c :: rest).drop label.length).dropWhile pyIsSpace
      let run := after.takeWhile cls
      if run.isEmpty then none else some run
    else none).orElse (fun _ => searchLabelRun label cls rest)

/-- `re.search(r"Time:\s*([\d.]+)\s*s", line)`: leftmost occurrence of
`Time:` followed by optional whitespace, a non-empty run of digits/dots, then
optional whitespace and a literal `s`; returns the captured run. -/
def searchTimeRun : List Char → Option (List Char)
  | [] => none
  | c :: rest =>
    (if ("Time:".data).isPrefixOf (c :: rest) then
      let after := ((c :: rest).drop 5).dropWhile pyIsSpace
      let run := after.takeWhile (fun c => c.isDigit || c = '.')
      let post := (after.drop run.length).dropWhile pyIsSpace
      match run, post with
      | [], _ => none
      | _, 's' :: _ => some run
      | _, _ => none
    else none).orElse (fun _ => searchTimeRun rest)

-- ── parse_output (src/ci_benchmark.py:48-104, src/run_benchmark.py:54-114) ──

def foundMarker : List Char := "Found solution of length".data
def lengthPat : List Char := "length".data
def expandedLabel : List Char := "#Expanded:".data
def frontierLabel : List Char := "#Frontier:".data
def generatedLabel : List Char := "#Generated:".data
def memoryLabel : List Char := "Memory used:".data
def unableMarker : List Char := "Unable to solve level".data

/-- The mutable locals of `parse_output` (including `frontier_size`, which the
source computes but does not return). -/
structure PState where
  solved : Bool
  solution_length : List Char
  solve_time : List Char
  memory : List Char
  expanded : List Char
  frontier_size : List Char
  generated : List Char
  deriving Repr, DecidableEq

def initPState : PState :=
  { solved := false, solution_length := "-".data, solve_time := "-".data,
    memory := "-".data, expanded := "-".data, frontier_size := "-".data,
    generated := "-".data }

/-- One iteration of the `for line in output.splitlines()` loop of
`parse_output`.  The `none` branches of `pySplitSecond` model the
`except: pass` handlers: a failed extraction leaves the field unchanged. -/
def updLine (st : PState) (line : List Char) : PState :=
  let st1 :=
    if containsSub foundMarker line then
      { st with
        solved := true
        solution_length :=
          match pySplitSecond lengthPat line with
          | some v => removeCommas (pyStripChars ['.', ','] (pyStrip v))
          | none => st.solution_length }
    else st
  let st2 :=
    if containsSub expandedLabel line then
      { st1 with
        expanded := (searchLabelRun expandedLabel isDigitComma line).elim st1.expanded removeCommas
        frontier_size := (searchLabelRun frontierLabel isDigitComma line).elim st1.frontier_size removeCommas
        generated := (searchLabelRun generatedLabel isDigitComma line).elim st1.generated removeCommas
        solve_time := (searchTimeRun line).elim st1.solve_time id }
    else st1
  let st3 :=
    if containsSub memoryLabel line then
      { st2 with memory := (pySplitSecond memoryLabel line).elim st2.memory pyStrip }
    else st2
  if containsSub unableMarker line then { st3 with solved := false } else st3

/-- The dictionary returned by `parse_output`. -/
structure Metrics where
  solved : Bool
  solution_length : List Char
  time : List Char
  memory : List Char
  expanded : List Char
  generated : List Char
  deriving Repr, DecidableEq

/-- `parse_output(output)`: line-by-line scan of the combined output. -/
def parse_output (output : List Char) : Metrics :=
  let st := (pySplitlines output).foldl updLine initPState
  { solved := st.solved, solution_length := st.solution_length,
    time := st.solve_time, memory := st.memory, expanded := st.expanded,
    generated := st.generated }

-- ── Per-field projections of the scan (for the independence theorem) ────────

def stepSolved (b : Bool) (line : List Char) : Bool :=
  let b1 := if containsSub foundMarker line then true else b
  if containsSub unableMarker line then false else b1

def stepLen (v : List Char) (line : List Char) : List Char :=
  if containsSub foundMarker line then
    match pySplitSecond lengthPat line with
    | some w => removeCommas (pyStripChars ['.', ','] (pyStrip w))
    | none => v
  else v

def stepTime (v : List Char) (line : List Char) : List Char :=
  if containsSub expandedLabel line then (searchTimeRun line).elim v id else v

def stepMem (v : List Char) (line : List Char) : List Char :=
  if containsSub memoryLabel line then (pySplitSecond memoryLabel line).elim v pyStrip else v

def stepExp (v : List Char) (line : List Char) : List Char :=
  if containsSub expandedLabel line then
    (searchLabelRun expandedLabel isDigitComma line).elim v removeCommas
  else v

def stepFrt (v : List Char) (line : List Char) : List Char :=
  if containsSub expandedLabel line then
    (searchLabelRun frontierLabel isDigitComma line).elim v removeCommas
  else v

def stepGen (v : List Char) (line : List Char) : List Char :=
  if containsSub expandedLabel line then
    (searchLabelRun generatedLabel isDigitComma line).elim v removeCommas
  else v

def solvedOf (output : List Char) : Bool := (pySplitlines output).foldl stepSolved false
def lenOf (output : List Char) : List Char := (pySplitlines output).foldl stepLen "-".data
def timeOf (output : List Char) : List Char := (pySplitlines output).foldl stepTime "-".data
def memOf (output : List Char) : List Char := (pySplitlines output).foldl stepMem "-".data
def expOf (output : List Char) : List Char := (pySplitlines output).foldl stepExp "-".data
def genOf (output : List Char) : List Char := (pySplitlines output).foldl stepGen "-".data

-- ── run_level (src/ci_benchmark.py:107-169, src/run_benchmark.py:117-179) ──

def solvedStatus : List Char := "\u2705 Solved".data
def errorStatus : List Char := "\u274c Error".data
def noSolutionStatus : List Char := "\u274c No solution".data
def timeoutStatus : List Char := "\u23f1\ufe0f Timeout".data
def exceptionStatus : List Char := "\u274c Exception".data

/-- The result dictionary returned by `run_level`: the keys of the
`parse_output` record plus the `status` and `wall_time` entries added by
`run_level` itself. -/
structure Outcome where
  status : List Char
  solved : Bool
  solution_length : List Char
  time : List Char
  memory : List Char
  expanded : List Char
  generated : List Char
  wall_time : List Char
  deriving Repr, DecidableEq

/-- Boundary model of `subprocess.run(cmd, capture_output=True, text=True,
timeout=timeout+10)`: the external process either completes with an exit code
and captured streams, hits the `timeout+10` hard deadline (the library kills
the process and raises `TimeoutExpired`), or invocation itself raises. -/
inductive ProcEvent where
  | completed (returncode : Int) (stdout : List Char) (stderr : List Char) (wallStr : List Char)
  | timedOut
  | excepted
  deriving Repr

/-- `run_level`: combine the streams, extract metrics, classify the outcome.
`wallStr` stands for the harness-formatted `f"{time.time()-wall_start:.1f}"`
(floating-point formatting is outside the embedding). -/
def run_level (ev : ProcEvent) (timeout : Nat) : Outcome :=
  match ev with
  | .completed rc out err wallStr =>
    let full := out ++ '\n' :: err
    let m := parse_output full
    let status :=
      if rc ≠ 0 ∧ m.solved = false then errorStatus
      else if m.solved then solvedStatus
      else noSolutionStatus
    { status := status, solved := m.solved, solution_length := m.solution_length,
      time := m.time, memory := m.memory, expanded := m.expanded,
      generated := m.generated, wall_time := wallStr }
  | .timedOut =>
    { status := timeoutStatus, solved := false, solution_length := "-".data,
      time := '>' :: (Nat.repr timeout).data, memory := "-".data,
      expanded := "-".data, generated := "-".data,
      wall_time := '>' :: (Nat.repr timeout).data }
  | .excepted =>
    { status := exceptionStatus, solved := false, solution_length := "-".data,
      time := "-".data, memory := "-".data, expanded := "-".data,
      generated := "-".data, wall_time := "-".data }

-- ── Batch counters and exit codes ───────────────────────────────────────────

/-- The counter loop shared by `ci_benchmark.main` (lines 231-240) and
`run_legacy_mode` (lines 441-450): per result, `solved_count`,
`timeout_count` or `error_count` is incremented. -/
def tallyStep (acc : Nat × Nat × Nat) (m : Outcome) : Nat × Nat × Nat :=
  if m.solved then (acc.1 + 1, acc.2.1, acc.2.2)
  else if containsSub "Timeout".data m.status then (acc.1, acc.2.1 + 1, acc.2.2)
  else (acc.1, acc.2.1, acc.2.2 + 1)

def tally (ms : List Outcome) : Nat × Nat × Nat := ms.foldl tallyStep (0, 0, 0)

/-- Exit status of `ci_benchmark.main` as a function of the per-level
outcomes: `sys.exit(1)` when no level matched the filter (line 221), and
`sys.exit(1)` after the report when `solved_count < len(levels)` (lines
281-282); implicit exit 0 otherwise.  (Report writing is assumed to
succeed.) -/
def ciMainExit (ms : List Outcome) : Nat :=
  if ms.isEmpty then 1
  else if (tally ms).1 < ms.length then 1 else 0

/-- Exit status of `run_benchmark.run_legacy_mode` (lines 429-431, 497-498),
same gate as `ciMainExit`. -/
def legacyMainExit (ms : List Outcome) : Nat :=
  if ms.isEmpty then 1
  else if (tally ms).1 < ms.length then 1 else 0

-- ── Excel-driven mode (src/run_benchmark.py:184-255, 299-408) ───────────────

/-- One task dictionary produced by `read_xlsx_tasks`. -/
structure XTask where
  level : List Char
  strategy : List Char
  sheet : List Char
  row : Nat
  deriving Repr, DecidableEq

/-- One worksheet: its title and its data rows (columns 1 and 2 of rows
2..max_row; `none` models an empty cell). -/
structure Sheet where
  title : List Char
  rows : List (Option (List Char) × Option (List Char))
  deriving Repr

/-- Pair each list element with its row index, starting at `n`. -/
def enumFrom (n : Nat) : List α → List (Nat × α)
  | [] => []
  | a :: as => (n, a) :: enumFrom (n + 1) as

/-- `if cell_level and cell_strategy:` then build the task dict
(lines 200-208); Python truthiness excludes `None` and empty strings. -/
def rowTask (title : List Char) (idx : Nat)
    (row : Option (List Char) × Option (List Char)) : Option XTask :=
  match row with
  | (some l, some s) =>
    if l ≠ [] ∧ s ≠ [] then
      some { level := pyStrip l, strategy := pyLower (pyStrip s), sheet := title, row := idx }
    else none
  | _ => none

/-- `read_xlsx_tasks` (lines 184-210): every worksheet in order, rows 2..max,
keeping rows with both cells truthy; no strategy validation is performed. -/
def read_xlsx_tasks (sheets : List Sheet) : List XTask :=
  (sheets.map (fun sh => (enumFrom 2 sh.rows).filterMap (fun p => rowTask sh.title p.1 p.2))).flatten

def VALID_STRATEGIES : List (List Char) :=
  ["bfs".data, "dfs".data, "astar".data, "wastar".data, "greedy".data]

/-- Model of `argparse`'s `choices=VALID_STRATEGIES` validation applied to the
`-s` (`--strategy`) flag (src/ci_benchmark.py:176-177, src/run_benchmark.py:
264-266): a value outside the list is rejected before `main` proceeds. -/
def cliStrategy (s : List Char) : Option (List Char) :=
  if VALID_STRATEGIES.contains s then some s else none

/-- Accumulator of the task loop of `run_xlsx_mode` (lines 318-346).
`starts` instruments the number of `run_level` calls: `run_level` spawns
exactly one external process per call, so `starts` counts process starts. -/
structure XState where
  results : List (XTask × Option Outcome)
  solved_count : Nat
  skip_count : Nat
  timeout_count : Nat
  error_count : Nat
  starts : Nat
  deriving Repr

/-- One iteration of the task loop of `run_xlsx_mode` (lines 325-346):
an unresolved level file appends `(task, None)` and continues; otherwise
`run_level` is invoked and its outcome tallied.  `resolve` abstracts
`find_level_file` (lines 250-255) and `runner` abstracts
`run_level(lvl_path, strategy, args.timeout)`. -/
def xlsxStep (resolve : List Char → Option (List Char))
    (runner : List Char → List Char → Outcome) (st : XState) (t : XTask) : XState :=
  match resolve t.level with
  | none =>
    { st with results := st.results ++ [(t, none)], skip_count := st.skip_count + 1 }
  | some p =>
    let m := runner p t.strategy
    let st1 := { st with results := st.results ++ [(t, some m)], starts := st.starts + 1 }
    if m.solved then { st1 with solved_count := st1.solved_count + 1 }
    else if containsSub "Timeout".data m.status then
      { st1 with timeout_count := st1.timeout_count + 1 }
    else { st1 with error_count := st1.error_count + 1 }

def run_xlsx_loop (resolve : List Char → Option (List Char))
    (runner : List Char → List Char → Outcome) (tasks : List XTask) : XState :=
  tasks.foldl (xlsxStep resolve runner) ⟨[], 0, 0, 0, 0, 0⟩

/-- Exit status of `run_xlsx_mode` as a function of the task list:
`sys.exit(1)` only when the Excel file contains no tasks (lines 303-305);
after the batch runs, the function returns without any exit-status check on
the outcomes (report and Excel writes assumed to succeed), so the process
exits 0. -/
def xlsxModeExit (tasks : List XTask) : Nat :=
  if tasks.isEmpty then 1 else 0

-- ── Excel write-back (src/run_benchmark.py:213-247) ─────────────────────────

/-- A value assigned to a worksheet cell by the write-back: `blank` is
Python `None`, numbers are `int`/`float` results, `strVal` is a string
written through unchanged.  (The value of a parsed float is abstracted as its
accepted literal; floating-point semantics are outside the embedding.) -/
inductive Cell where
  | blank
  | intVal (n : Int)
  | floatVal (lit : List Char)
  | strVal (s : List Char)
  deriving Repr, DecidableEq

/-- Maximal digit group with single underscores between digits (Python
numeric-literal grouping): consumes `d (d | _d)*`, returns the rest, or
`none` when the input does not start with a digit. -/
def munchDigits : List Char → Option (List Char)
  | c :: rest =>
    if c.isDigit then some (munchRest rest) else none
  | [] => none
where
  munchRest : List Char → List Char
    | '_' :: c :: rest => if c.isDigit then munchRest rest else '_' :: c :: rest
    | c :: rest => if c.isDigit then munchRest rest else c :: rest
    | [] => []

/-- Digit-group value accumulation (underscores skipped). -/
def digitsVal (acc : Nat) : List Char → Nat
  | '_' :: c :: rest => if c.isDigit then digitsVal (acc * 10 + (c.toNat - 48)) rest else acc
  | c :: rest => if c.isDigit then digitsVal (acc * 10 + (c.toNat - 48)) rest else acc
  | [] => acc

/-- Python `int(s)`: surrounding whitespace, optional sign, then one digit
group; `none` models `ValueError`. -/
def pyInt (s : List Char) : Option Int :=
  let t := pyStrip s
  let core : Option (Bool × List Char) :=
    match t with
    | '-' :: u => some (true, u)
    | '+' :: u => some (false, u)
    | u => some (false, u)
  match core with
  | some (neg, u) =>
    match u with
    | c :: _ =>
      if c.isDigit then
        match munchDigits u with
        | some [] =>
          let v : Int := Int.ofNat (digitsVal 0 u)
          some (if neg then -v else v)
        | _ => none
      else none
    | [] => none
  | none => none

/-- Optional exponent part `([eE] [+-]? digits)?` followed by end of string. -/
def expTailOk : List Char → Bool
  | [] => true
  | c :: rest =>
    if c = 'e' ∨ c = 'E' then
      let rest2 := match rest with
        | '+' :: u => u
        | '-' :: u => u
        | u => u
      match munchDigits rest2 with
      | some [] => true
      | _ => false
    else false

/-- Python `float(s)` acceptance for inputs containing a `.` (the only case
the source reaches): surrounding whitespace, optional sign, then
`digits [. digits?] | . digits`, optional exponent. -/
def pyFloatOk (s : List Char) : Bool :=
  let t := pyStrip s
  let u := match t with
    | '-' :: u => u
    | '+' :: u => u
    | u => u
  match munchDigits u with
  | some r =>
    (match r with
     | '.' :: r2 =>
       (match munchDigits r2 with
        | some r3 => expTailOk r3
        | none => expTailOk r2)
     | _ => expTailOk r)
  | none =>
    match u with
    | '.' :: r2 =>
      (match munchDigits r2 with
       | some r3 => expTailOk r3
       | none => false)
    | _ => false

/-- `_to_number` (src/run_benchmark.py:238-247): `None`/`"-"` become blank;
otherwise `float(val)` when the string contains a dot, else `int(val)`; on
`ValueError` the original value is returned **as-is**. -/
def to_number (val : Option (List Char)) : Cell :=
  match val with
  | none => .blank
  | some s =>
    if s = "-".data then .blank
    else if containsSub ".".data s then
      (if pyFloatOk s then .floatVal s else .strVal s)
    else
      match pyInt s with
      | some n => .intVal n
      | none => .strVal s

/-- `write_xlsx_results` (src/run_benchmark.py:213-235) as the list of cell
assignments it performs: for each non-skipped task, columns 3, 4, 5 of the
originating row receive `_to_number` of the generated / time /
solution-length fields; skipped tasks (metrics `None`) produce no writes.
Also returns the `updated` counter. -/
def rowWrites (tr : XTask × Option Outcome) : List (List Char × Nat × Nat × Cell) :=
  match tr.2 with
  | none => []
  | some m =>
    [(tr.1.sheet, tr.1.row, 3, to_number (some m.generated)),
     (tr.1.sheet, tr.1.row, 4, to_number (some m.time)),
     (tr.1.sheet, tr.1.row, 5, to_number (some m.solution_length))]

def writeStep (acc : List (List Char × Nat × Nat × Cell) × Nat)
    (tr : XTask × Option Outcome) : List (List Char × Nat × Nat × Cell) × Nat :=
  match tr.2 with
  | none => acc
  | some m =>
    (acc.1 ++ [(tr.1.sheet, tr.1.row, 3, to_number (some m.generated)),
               (tr.1.sheet, tr.1.row, 4, to_number (some m.time)),
               (tr.1.sheet, tr.1.row, 5, to_number (some m.solution_length))],
     acc.2 + 1)

def write_xlsx_results (task_results : List (XTask × Option Outcome)) :
    List (List Char × Nat × Nat × Cell) × Nat :=
  task_results.foldl writeStep ([], 0)

-- ── CI report builder (src/ci_benchmark.py:242-268) ─────────────────────────

/-- Python `"\n".join(lines)`. -/
def strJoin (sep : List Char) : List (List Char) → List Char
  | [] => []
  | [x] => x
  | x :: xs => x ++ sep ++ strJoin sep xs

/-- The `lines` list built by `ci_benchmark.main` (lines 243-266).  `ts` is
the value of `time.strftime("%Y-%m-%d %H:%M:%S")` at render time. -/
def ciReportLines (ts fil strat : List Char) (tmo : Nat)
    (results : List (List Char × Outcome)) : List (List Char) :=
  let t := (tally (results.map Prod.snd)).2.1
  let e := (tally (results.map Prod.snd)).2.2
  let s := (tally (results.map Prod.snd)).1
  ["## ".data ++ fil ++ " — ".data ++ pyUpper strat ++ "\n".data,
   "**Date:** ".data ++ ts ++ "  ".data,
   "**Strategy:** `".data ++ strat ++ "` | **Timeout:** ".data ++ (Nat.repr tmo).data ++
     "s | **Java Xmx:** 4g  ".data,
   "**Score:** ".data ++ (Nat.repr s).data ++ "/".data ++ (Nat.repr results.length).data ++
     " solved".data] ++
  (if t ≠ 0 then [" | ".data ++ (Nat.repr t).data ++ " timeout".data] else []) ++
  (if e ≠ 0 then [" | ".data ++ (Nat.repr e).data ++ " error/unsolved".data] else []) ++
  ["\n".data,
   "| Level | Status | Solution Length | Time (s) | Generated | Memory |".data,
   "|-------|--------|-----------------|----------|-----------|--------|".data] ++
  results.map (fun r =>
    "| `".data ++ r.1 ++ "` | ".data ++ r.2.status ++ " | ".data ++ r.2.solution_length ++
    " | ".data ++ r.2.time ++ " | ".data ++ r.2.generated ++ " | ".data ++ r.2.memory ++
    " |".data) ++
  [[]]

/-- `report = "\n".join(lines) + "\n"` (line 268). -/
def buildReportCI (ts fil strat : List Char) (tmo : Nat)
    (results : List (List Char × Outcome)) : List Char :=
  strJoin "\n".data (ciReportLines ts fil strat tmo results) ++ "\n".data

-- ── Helper lemmas on the string models ──────────────────────────────────────

theorem isPrefixOf_iff (p : List Char) : ∀ s : List Char,
    p.isPrefixOf s = true ↔ ∃ t, s = p ++ t := by
  induction p with
  | nil => intro s; simp [List.isPrefixOf]
  | cons c cs ih =>
    intro s
    cases s with
    | nil => simp [List.isPrefixOf]
    | cons d ds =>
      simp only [List.isPrefixOf, Bool.and_eq_true, beq_iff_eq, ih, List.cons_append,
        List.cons.injEq]
      aesop

theorem isPrefixOf_self_append (p t : List Char) : p.isPrefixOf (p ++ t) = true :=
  (isPrefixOf_iff p (p ++ t)).mpr ⟨t, rfl⟩

theorem splitFirst_eq_some (p : List Char) : ∀ s b a : List Char,
    splitFirst p s = some (b, a) → s = b ++ p ++ a := by
  intro s
  induction s with
  | nil =>
    intro b a h
    simp only [splitFirst] at h
    split at h
    · next hp =>
      simp only [Option.some.injEq, Prod.mk.injEq] at h
      subst hp
      rw [← h.1, ← h.2]
      rfl
    · simp at h
  | cons c rest ih =>
    intro b a h
    unfold splitFirst at h
    by_cases hp : p.isPrefixOf (c :: rest) = true
    · simp only [hp, if_true, Option.some.injEq, Prod.mk.injEq] at h
      obtain ⟨t, ht⟩ := (isPrefixOf_iff p (c :: rest)).mp hp
      have hdrop : (c :: rest).drop p.length = t := by
        rw [ht, List.drop_left]
      rw [← h.1, ← h.2, hdrop, ht]
      simp
    · simp only [hp, if_false, Bool.false_eq_true] at h
      cases hsf : splitFirst p rest with
      | none => rw [hsf] at h; simp at h
      | some ba =>
        rw [hsf] at h
        obtain ⟨b0, a0⟩ := ba
        simp only [Option.some.injEq, Prod.mk.injEq] at h
        have hr := ih b0 a0 hsf
        rw [← h.1, ← h.2]
        simp [hr]

theorem containsSub_self_append (p t : List Char) : containsSub p (p ++ t) = true := by
  cases p with
  | nil => unfold containsSub splitFirst; cases t <;> simp
  | cons c cs =>
    have h : (c :: cs).isPrefixOf (c :: (cs ++ t)) = true :=
      isPrefixOf_self_append (c :: cs) t
    unfold containsSub splitFirst
    simp [h]

theorem containsSub_cons (p t : List Char) (c : Char)
    (h : containsSub p t = true) : containsSub p (c :: t) = true := by
  unfold containsSub splitFirst
  by_cases hp : p.isPrefixOf (c :: t) = true
  · simp [hp]
  · simp only [hp, if_false, Bool.false_eq_true]
    unfold containsSub at h
    cases hsf : splitFirst p t with
    | none => rw [hsf] at h; simp at h
    | some ba =>
      obtain ⟨b0, a0⟩ := ba
      simp [hsf]

theorem containsSub_append_left (p s t : List Char)
    (h : containsSub p t = true) : containsSub p (s ++ t) = true := by
  induction s with
  | nil => exact h
  | cons c cs ih => exact containsSub_cons p (cs ++ t) c ih

theorem containsSub_middle (p x y : List Char) : containsSub p (x ++ (p ++ y)) = true :=
  containsSub_append_left p x (p ++ y) (containsSub_self_append p y)

theorem pySplitSecond_isSome (p s : List Char)
    (h : containsSub p s = true) : (pySplitSecond p s).isSome = true := by
  unfold containsSub at h
  cases hsf : splitFirst p s with
  | none => rw [hsf] at h; simp at h
  | some ba =>
    obtain ⟨b0, a0⟩ := ba
    cases hsf2 : splitFirst p a0 with
    | none => simp [pySplitSecond, hsf, hsf2]
    | some ba2 =>
      obtain ⟨b1, a1⟩ := ba2
      simp [pySplitSecond, hsf, hsf2]

-- ── Field independence of the parse_output scan ─────────────────────────────

theorem updLine_proj (st : PState) (line : List Char) :
    updLine st line =
      ⟨stepSolved st.solved line, stepLen st.solution_length line,
       stepTime st.solve_time line, stepMem st.memory line,
       stepExp st.expanded line, stepFrt st.frontier_size line,
       stepGen st.generated line⟩ := by
  unfold updLine stepSolved stepLen stepTime stepMem stepExp stepFrt stepGen
  cases h1 : containsSub foundMarker line <;>
    cases h2 : containsSub expandedLabel line <;>
      cases h3 : containsSub memoryLabel line <;>
        cases h4 : containsSub unableMarker line <;>
          simp [h1, h2, h3, h4]

theorem foldl_updLine_proj : ∀ (lines : List (List Char)) (st : PState),
    lines.foldl updLine st =
      ⟨lines.foldl stepSolved st.solved, lines.foldl stepLen st.solution_length,
       lines.foldl stepTime st.solve_time, lines.foldl stepMem st.memory,
       lines.foldl stepExp st.expanded, lines.foldl stepFrt st.frontier_size,
       lines.foldl stepGen st.generated⟩ := by
  intro lines
  induction lines with
  | nil => intro st; rfl
  | cons l ls ih =>
    intro st
    simp only [List.foldl_cons]
    rw [updLine_proj st l, ih]

theorem parse_output_proj (output : List Char) :
    parse_output output =
      ⟨solvedOf output, lenOf output, timeOf output,
       memOf output, expOf output, genOf output⟩ := by
  unfold parse_output solvedOf lenOf timeOf memOf expOf genOf
  rw [foldl_updLine_proj]
  rfl

theorem parse_output_solved (output : List Char) :
    (parse_output output).solved = solvedOf output := by
  rw [parse_output_proj]

-- ── Ordering behaviour of the solved flag ───────────────────────────────────

theorem stepSolved_eq (b : Bool) (l : List Char) :
    stepSolved b l =
      if containsSub unableMarker l then false
      else if containsSub foundMarker l then true else b := by
  unfold stepSolved
  cases containsSub foundMarker l <;> cases containsSub unableMarker l <;> simp

theorem foldl_stepSolved_eq_true : ∀ (lines : List (List Char)) (b : Bool),
    (∀ i, i < lines.length → containsSub foundMarker (lines.getD i []) = true →
      ∃ j, j < lines.length ∧ i < j ∧ containsSub unableMarker (lines.getD j []) = true) →
    lines.foldl stepSolved b = true →
    b = true ∧ ∀ j, j < lines.length → containsSub unableMarker (lines.getD j []) = false := by
  intro lines
  induction lines with
  | nil =>
    intro b _ hb
    exact ⟨hb, fun j hj => absurd hj (Nat.not_lt_zero j)⟩
  | cons l ls ih =>
    intro b H hfold
    simp only [List.foldl_cons] at hfold
    have Hls : ∀ i, i < ls.length → containsSub foundMarker (ls.getD i []) = true →
        ∃ j, j < ls.length ∧ i < j ∧ containsSub unableMarker (ls.getD j []) = true := by
      intro i hi hf
      have h2 := H (i + 1) (by simpa using Nat.succ_lt_succ hi) (by simpa using hf)
      obtain ⟨j, hj1, hj2, hj3⟩ := h2
      cases j with
      | zero => omega
      | succ j0 =>
        refine ⟨j0, by simpa using hj1, by omega, by simpa using hj3⟩
    obtain ⟨hstep, hrest⟩ := ih (stepSolved b l) Hls hfold
    rw [stepSolved_eq] at hstep
    cases hu : containsSub unableMarker l with
    | true => rw [hu] at hstep; simp at hstep
    | false =>
      rw [hu] at hstep
      simp only [Bool.false_eq_true, if_false] at hstep
      cases hf : containsSub foundMarker l with
      | true =>
        have h0 := H 0 (by simp) (by simpa using hf)
        obtain ⟨j, hj1, hj2, hj3⟩ := h0
        cases j with
        | zero => omega
        | succ j0 =>
          have := hrest j0 (by simpa using hj1)
          rw [List.getD_cons_succ] at hj3
          rw [this] at hj3
          simp at hj3
      | false =>
        rw [hf] at hstep
        simp only [Bool.false_eq_true, if_false] at hstep
        refine ⟨hstep, fun j hj => ?_⟩
        cases j with
        | zero => simpa using hu
        | succ j0 => simpa using hrest j0 (by simpa using hj)

theorem foldl_stepSolved_stays_true : ∀ (lines : List (List Char)),
    (∀ j, j < lines.length → containsSub unableMarker (lines.getD j []) = false) →
    lines.foldl stepSolved true = true := by
  intro lines
  induction lines with
  | nil => intro _; rfl
  | cons l ls ih =>
    intro H
    simp only [List.foldl_cons]
    have h0 : containsSub unableMarker l = false := by simpa using H 0 (by simp)
    have hstep : stepSolved true l = true := by
      rw [stepSolved_eq, if_neg (by simp [h0])]
      cases containsSub foundMarker l <;> simp
    rw [hstep]
    exact ih (fun j hj => by simpa using H (j + 1) (by simpa using Nat.succ_lt_succ hj))

theorem foldl_stepSolved_true : ∀ (lines : List (List Char)) (b : Bool) (i : Nat),
    i < lines.length →
    containsSub foundMarker (lines.getD i []) = true →
    (∀ j, j < lines.length → i ≤ j → containsSub unableMarker (lines.getD j []) = false) →
    lines.foldl stepSolved b = true := by
  intro lines
  induction lines with
  | nil => intro b i hi _ _; exact absurd hi (Nat.not_lt_zero i)
  | cons l ls ih =>
    intro b i hi hf hnu
    simp only [List.foldl_cons]
    cases i with
    | zero =>
      have hu0 : containsSub unableMarker l = false := by
        simpa using hnu 0 (by simp) (Nat.le_refl 0)
      have hstep : stepSolved b l = true := by
        rw [stepSolved_eq, if_neg (by simp [hu0])]
        rw [List.getD_cons_zero] at hf
        simp [hf]
      rw [hstep]
      exact foldl_stepSolved_stays_true ls (fun j hj => by
        simpa using hnu (j + 1) (by simpa using Nat.succ_lt_succ hj) (Nat.zero_le _))
    | succ i0 =>
      exact ih (stepSolved b l) i0 (by simpa using hi) (by simpa using hf)
        (fun j hj hij => by
          simpa using hnu (j + 1) (by simpa using Nat.succ_lt_succ hj) (Nat.succ_le_succ hij))

-- ── Batch-loop characterizations ────────────────────────────────────────────

theorem foldl_tallyStep_fst : ∀ (ms : List Outcome) (a : Nat × Nat × Nat),
    (ms.foldl tallyStep a).1 = a.1 + ms.countP (fun m => m.solved) := by
  intro ms
  induction ms with
  | nil => intro a; simp
  | cons m rest ih =>
    intro a
    simp only [List.foldl_cons, List.countP_cons, ih]
    cases hs : m.solved with
    | true => simp [tallyStep, hs]; omega
    | false =>
      cases ht : containsSub "Timeout".data m.status with
      | true => simp [tallyStep, hs, ht]
      | false => simp [tallyStep, hs, ht]

theorem tally_solved_count (ms : List Outcome) :
    (tally ms).1 = ms.countP (fun m => m.solved) := by
  unfold tally
  rw [foldl_tallyStep_fst]
  simp

theorem xlsxStep_fields (resolve : List Char → Option (List Char))
    (runner : List Char → List Char → Outcome) (st : XState) (t : XTask) :
    (xlsxStep resolve runner st t).results =
        st.results ++ [(t, (resolve t.level).map (fun p => runner p t.strategy))] ∧
    (xlsxStep resolve runner st t).skip_count =
        st.skip_count + (if (resolve t.level).isNone then 1 else 0) ∧
    (xlsxStep resolve runner st t).starts =
        st.starts + (if (resolve t.level).isSome then 1 else 0) := by
  unfold xlsxStep
  cases hres : resolve t.level with
  | none => simp
  | some p =>
    cases hsol : (runner p t.strategy).solved <;>
      cases hto : containsSub "Timeout".data (runner p t.strategy).status <;>
        simp [hsol, hto]

theorem run_xlsx_loop_aux : ∀ (tasks : List XTask)
    (resolve : List Char → Option (List Char)) (runner : List Char → List Char → Outcome)
    (st : XState),
    (tasks.foldl (xlsxStep resolve runner) st).results =
        st.results ++ tasks.map (fun t => (t, (resolve t.level).map (fun p => runner p t.strategy))) ∧
    (tasks.foldl (xlsxStep resolve runner) st).skip_count =
        st.skip_count + tasks.countP (fun t => (resolve t.level).isNone) ∧
    (tasks.foldl (xlsxStep resolve runner) st).starts =
        st.starts + tasks.countP (fun t => (resolve t.level).isSome) := by
  intro tasks
  induction tasks with
  | nil => intro resolve runner st; simp
  | cons t ts ih =>
    intro resolve runner st
    simp only [List.foldl_cons, List.countP_cons, List.map_cons]
    obtain ⟨h1, h2, h3⟩ := ih resolve runner (xlsxStep resolve runner st t)
    obtain ⟨f1, f2, f3⟩ := xlsxStep_fields resolve runner st t
    refine ⟨?_, ?_, ?_⟩
    · rw [h1, f1]; simp
    · rw [h2, f2]
      cases hres : (resolve t.level).isNone <;> simp [hres] <;> omega
    · rw [h3, f3]
      cases hres : (resolve t.level).isSome <;> simp [hres] <;> omega

theorem foldl_writeStep : ∀ (trs : List (XTask × Option Outcome))
    (acc : List (List Char × Nat × Nat × Cell) × Nat),
    (trs.foldl writeStep acc).1 = acc.1 ++ (trs.map rowWrites).flatten ∧
    (trs.foldl writeStep acc).2 = acc.2 + trs.countP (fun tr => tr.2.isSome) := by
  intro trs
  induction trs with
  | nil => intro acc; simp
  | cons tr rest ih =>
    intro acc
    simp only [List.foldl_cons, List.map_cons, List.flatten_cons, List.countP_cons]
    obtain ⟨h1, h2⟩ := ih (writeStep acc tr)
    cases hm : tr.2 with
    | none =>
      refine ⟨?_, ?_⟩
      · rw [h1]; simp [writeStep, rowWrites, hm]
      · rw [h2]; simp [writeStep, hm]
    | some m =>
      refine ⟨?_, ?_⟩
      · rw [h1]; simp [writeStep, rowWrites, hm]
      · rw [h2]; simp [writeStep, hm]; omega

-- ── Report structure lemmas ─────────────────────────────────────────────────

theorem strJoin_cons_cons (sep x y : List Char) (ys : List (List Char)) :
    strJoin sep (x :: y :: ys) = x ++ sep ++ strJoin sep (y :: ys) := rfl

theorem strJoin_cons_exists (sep y : List Char) (ys : List (List Char)) :
    ∃ t, strJoin sep (y :: ys) = y ++ t := by
  cases ys with
  | nil => exact ⟨[], by simp [strJoin]⟩
  | cons z zs => exact ⟨sep ++ strJoin sep (z :: zs), by simp [strJoin_cons_cons]⟩

theorem ciReportLines_head (ts fil strat : List Char) (tmo : Nat)
    (results : List (List Char × Outcome)) :
    ∃ rest, ciReportLines ts fil strat tmo results =
      ("## ".data ++ fil ++ " — ".data ++ pyUpper strat ++ "\n".data) ::
      ("**Date:** ".data ++ ts ++ "  ".data) :: rest := ⟨_, rfl⟩

theorem buildReportCI_contains_date (ts fil strat : List Char) (tmo : Nat)
    (results : List (List Char × Outcome)) :
    containsSub ("**Date:** ".data ++ ts) (buildReportCI ts fil strat tmo results) = true := by
  obtain ⟨rest, hrest⟩ := ciReportLines_head ts fil strat tmo results
  unfold buildReportCI
  rw [hrest, strJoin_cons_cons]
  obtain ⟨t, ht⟩ := strJoin_cons_exists "\n".data ("**Date:** ".data ++ ts ++ "  ".data) rest
  rw [ht]
  simp only [List.append_assoc]
  apply containsSub_append_left
  apply containsSub_append_left
  apply containsSub_append_left
  apply containsSub_append_left
  apply containsSub_append_left
  apply containsSub_append_left
  rw [← List.append_assoc "**Date:** ".data ts]
  exact containsSub_self_append _ _

-- ── Claim theorems ──────────────────────────────────────────────────────────

/-- C1: the metrics extractor is total.  `parse_output` is a total function of
the input text (every Lean equation above is total), its only internally
fallible operations — the two `split(...)[1]` indexings, whose `IndexError`
is modelled by `pySplitSecond = none` — are guarded by the surrounding
substring tests so the exception path never fires, and every field of the
returned record is computed by its own independent scan of the text, so a
malformed value in one field degrades only that field to the `"-"` marker and
never disturbs the rest of the record. -/
theorem c1_extractor_total_and_independent :
    (∀ line : List Char, containsSub foundMarker line = true →
        (pySplitSecond lengthPat line).isSome = true) ∧
    (∀ line : List Char, containsSub memoryLabel line = true →
        (pySplitSecond memoryLabel line).isSome = true) ∧
    (∀ output : List Char, parse_output output =
        ⟨solvedOf output, lenOf output, timeOf output,
         memOf output, expOf output, genOf output⟩) := by
  refine ⟨?_, ?_, parse_output_proj⟩
  · intro line h
    unfold containsSub at h
    cases hsf : splitFirst foundMarker line with
    | none => rw [hsf] at h; simp at h
    | some ba =>
      obtain ⟨b, a⟩ := ba
      have hline := splitFirst_eq_some foundMarker line b a hsf
      have hfm : foundMarker = "Found solution of ".data ++ lengthPat := by decide
      apply pySplitSecond_isSome
      rw [hline, hfm]
      simp only [List.append_assoc]
      apply containsSub_append_left
      apply containsSub_append_left
      exact containsSub_self_append _ _
  · intro line h
    exact pySplitSecond_isSome _ _ h

/-- Witness for C1: the fallible length extraction succeeds on a concrete
marker line. -/
theorem c1_witness :
    (pySplitSecond lengthPat "Found solution of length 42.".data).isSome = true :=
  c1_extractor_total_and_independent.1 "Found solution of length 42.".data (by decide)

/-- C2: in any output text in which every line carrying the success marker
"Found solution of length" is followed later by a line carrying the failure
marker "Unable to solve level", `parse_output` reports `solved = false`:
a failure marker always wins over the success markers seen earlier. -/
theorem c2_failure_overrides_earlier_success (raw : List Char)
    (H : ∀ i, i < (pySplitlines raw).length →
        containsSub foundMarker ((pySplitlines raw).getD i []) = true →
        ∃ j, j < (pySplitlines raw).length ∧ i < j ∧
          containsSub unableMarker ((pySplitlines raw).getD j []) = true) :
    (parse_output raw).solved = false := by
  rw [parse_output_solved]
  unfold solvedOf
  by_contra hne
  have htrue : (pySplitlines raw).foldl stepSolved false = true := by
    cases h : (pySplitlines raw).foldl stepSolved false
    · exact absurd h hne
    · rfl
  obtain ⟨hb, _⟩ := foldl_stepSolved_eq_true (pySplitlines raw) false H htrue
  exact Bool.false_ne_true hb

/-- Witness for C2 on a concrete two-line text. -/
theorem c2_witness :
    (parse_output "Found solution of length 33.\nUnable to solve level".data).solved = false :=
  c2_failure_overrides_earlier_success "Found solution of length 33.\nUnable to solve level".data
    (by decide)

/-- C10 counterexample: an "Unable to solve level" line (index 0) is followed
later by a "Found solution of length" line (index 1), yet `parse_output`
returns `solved = false`, because a further "Unable to solve level" line
follows the success line.  The claim's universally quantified
last-occurrence-wins statement is therefore false as stated. -/
theorem c10_counterexample :
    containsSub unableMarker
      ((pySplitlines "Unable to solve level\nFound solution of length 5.\nUnable to solve level".data).getD 0 []) = true ∧
    containsSub foundMarker
      ((pySplitlines "Unable to solve level\nFound solution of length 5.\nUnable to solve level".data).getD 1 []) = true ∧
    (0 : Nat) < 1 ∧
    (parse_output "Unable to solve level\nFound solution of length 5.\nUnable to solve level".data).solved = false := by
  decide

/-- C10 (amended): later success markers do win over earlier failure markers,
provided no failure marker occurs on the success line or later: if some line
carries the success marker and no line from that point on carries the failure
marker, `parse_output` reports `solved = true`. -/
theorem c10_success_after_failure (raw : List Char) (i0 i : Nat)
    (h0 : i0 < (pySplitlines raw).length)
    (hu : containsSub unableMarker ((pySplitlines raw).getD i0 []) = true)
    (h01 : i0 < i)
    (hi : i < (pySplitlines raw).length)
    (hf : containsSub foundMarker ((pySplitlines raw).getD i []) = true)
    (hafter : ∀ j, j < (pySplitlines raw).length → i ≤ j →
        containsSub unableMarker ((pySplitlines raw).getD j []) = false) :
    (parse_output raw).solved = true := by
  rw [parse_output_solved]
  exact foldl_stepSolved_true (pySplitlines raw) false i hi hf hafter

/-- Witness for the amended C10 on a concrete two-line text. -/
theorem c10_witness :
    (parse_output "Unable to solve level\nFound solution of length 5.".data).solved = true :=
  c10_success_after_failure "Unable to solve level\nFound solution of length 5.".data 0 1
    (by decide) (by decide) (by decide) (by decide) (by decide) (by decide)

/-- C3: outcome classification of a completed process run follows the source's
priority order: a detected success always classifies as "✅ Solved" (the
error clause requires `not solved`); with no detected success, a non-zero
exit status classifies as "❌ Error" and a zero exit status as
"❌ No solution". -/
theorem c3_outcome_classification (rc : Int) (out err ws : List Char) (tmo : Nat) :
    ((parse_output (out ++ '\n' :: err)).solved = true →
      (run_level (.completed rc out err ws) tmo).status = solvedStatus) ∧
    ((parse_output (out ++ '\n' :: err)).solved = false → rc ≠ 0 →
      (run_level (.completed rc out err ws) tmo).status = errorStatus) ∧
    ((parse_output (out ++ '\n' :: err)).solved = false → rc = 0 →
      (run_level (.completed rc out err ws) tmo).status = noSolutionStatus) := by
  refine ⟨?_, ?_, ?_⟩
  · intro hs
    simp [run_level, hs]
  · intro hs hrc
    simp [run_level, hs, hrc]
  · intro hs hrc
    simp [run_level, hs, hrc]

/-- Witness for C3: a non-zero exit with no success marker classifies as
"❌ Error". -/
theorem c3_witness :
    (run_level (.completed 1 "boom".data [] "0.1".data) 180).status = errorStatus :=
  (c3_outcome_classification 1 "boom".data [] "0.1".data 180).2.1 (by decide) (by decide)

/-- C4 counterexample: on a timeout with deadline 180, `run_level` reports
status "⏱️ Timeout" but records `wall_time` as the marker string ">180" —
neither the configured deadline `180` nor the deadline-plus-grace `190`
claimed elsewhere by the spec. -/
theorem c4_counterexample :
    (run_level .timedOut 180).status = timeoutStatus ∧
    (run_level .timedOut 180).wall_time = ">180".data ∧
    (run_level .timedOut 180).wall_time ≠ "180".data ∧
    (run_level .timedOut 180).wall_time ≠ "190".data := by
  decide

/-- C4 (amended): for every deadline, a timed-out task yields status
"⏱️ Timeout" with `solved = false`, and both the `time` and `wall_time`
fields are set to the marker `">"` followed by the configured deadline —
a string distinct from the numeric deadline itself.  Forcible termination of
the process after the `+10s` grace is performed by `subprocess.run` and is
modelled as the `timedOut` boundary event. -/
theorem c4_timeout_marks_deadline (tmo : Nat) :
    (run_level .timedOut tmo).status = timeoutStatus ∧
    (run_level .timedOut tmo).solved = false ∧
    (run_level .timedOut tmo).wall_time = '>' :: (Nat.repr tmo).data ∧
    (run_level .timedOut tmo).time = '>' :: (Nat.repr tmo).data ∧
    (run_level .timedOut tmo).wall_time ≠ (Nat.repr tmo).data := by
  refine ⟨rfl, rfl, rfl, rfl, ?_⟩
  intro h
  have hlen := congrArg List.length h
  simp only [run_level, List.length_cons, String.length] at hlen
  omega

/-- Witness for the amended C4 at deadline 300. -/
theorem c4_witness : (run_level .timedOut 300).wall_time = '>' :: (Nat.repr 300).data :=
  (c4_timeout_marks_deadline 300).2.2.1

/-- C5 counterexample: in structured-table (xlsx) mode a task can end in
"❌ Error" (non-zero exit, no success marker) — the loop counts one errored
task — yet `run_xlsx_mode` performs no exit-status check after the batch, so
the harness exits 0, contradicting the claimed "non-zero whenever any task
errored, timed out, or was skipped". -/
theorem c5_counterexample :
    (run_level (.completed 1 "crash".data [] "0.1".data) 180).status = errorStatus ∧
    (run_xlsx_loop (fun _ => some "levels/SA01.lvl".data)
        (fun _ _ => run_level (.completed 1 "crash".data [] "0.1".data) 180)
        [⟨"SA01".data, "bfs".data, "Sheet1".data, 2⟩]).error_count = 1 ∧
    xlsxModeExit [⟨"SA01".data, "bfs".data, "Sheet1".data, 2⟩] = 0 := by
  decide

/-- C5 (amended): the exit-status gate exists only in the CI script and in
legacy directory-scan mode: there, for a non-empty batch, the exit status is
zero iff every task's outcome is solved.  Structured-table mode always exits
zero once a non-empty batch has run (and the report/store writes succeed),
regardless of the outcomes. -/
theorem c5_exit_codes (ms : List Outcome) (tasks : List XTask) :
    (ms ≠ [] → (ciMainExit ms = 0 ↔ ∀ m ∈ ms, m.solved = true)) ∧
    (ms ≠ [] → (legacyMainExit ms = 0 ↔ ∀ m ∈ ms, m.solved = true)) ∧
    (tasks ≠ [] → xlsxModeExit tasks = 0) := by
  have key : ∀ (ns : List Outcome), ns ≠ [] →
      ((if ns.isEmpty then 1 else if (tally ns).1 < ns.length then 1 else 0) = 0 ↔
        ∀ m ∈ ns, m.solved = true) := by
    intro ns hne
    have hempty : ns.isEmpty = false := by
      cases ns with
      | nil => exact absurd rfl hne
      | cons x xs => rfl
    rw [hempty, tally_solved_count]
    simp only [Bool.false_eq_true, if_false]
    have hle : ns.countP (fun m => m.solved) ≤ ns.length := List.countP_le_length _
    constructor
    · intro h0
      by_cases hlt : ns.countP (fun m => m.solved) < ns.length
      · rw [if_pos hlt] at h0; omega
      · have heq : ns.countP (fun m => m.solved) = ns.length := by omega
        intro m hm
        exact List.countP_eq_length.mp heq m hm
    · intro hall
      have heq : ns.countP (fun m => m.solved) = ns.length :=
        List.countP_eq_length.mpr hall
      rw [if_neg (by omega)]
  refine ⟨key ms, key ms, ?_⟩
  intro hne
  unfold xlsxModeExit
  cases tasks with
  | nil => exact absurd rfl hne
  | cons t ts => rfl

/-- Witness for the amended C5: a one-task solved batch exits 0 in CI mode,
and a one-task batch exits 0 in xlsx mode. -/
theorem c5_witness :
    ciMainExit [run_level (.completed 0 "Found solution of length 3.".data [] "0.1".data) 180] = 0 ∧
    xlsxModeExit [⟨"SA01".data, "bfs".data, "Sheet1".data, 2⟩] = 0 :=
  ⟨((c5_exit_codes [run_level (.completed 0 "Found solution of length 3.".data [] "0.1".data) 180]
      []).1 (by decide)).mpr (by decide),
   (c5_exit_codes [] [⟨"SA01".data, "bfs".data, "Sheet1".data, 2⟩]).2.2 (by decide)⟩

/-- C6 counterexample: a structured-table row with strategy " QUANTUM " —
not in the valid set — is turned into a task with strategy "quantum" by
`read_xlsx_tasks` without any validation, and that task reaches the runner
(one process start), contradicting "rejected at resolution time, never
passed to the runner". -/
theorem c6_counterexample :
    read_xlsx_tasks [⟨"Sheet1".data, [(some "MAPF00".data, some " QUANTUM ".data)]⟩] =
      [⟨"MAPF00".data, "quantum".data, "Sheet1".data, 2⟩] ∧
    VALID_STRATEGIES.contains "quantum".data = false ∧
    (run_xlsx_loop (fun _ => some "levels/MAPF00.lvl".data)
        (fun _ _ => run_level .timedOut 180)
        (read_xlsx_tasks [⟨"Sheet1".data, [(some "MAPF00".data, some " QUANTUM ".data)]⟩])).starts = 1 := by
  decide

/-- C6 (amended): only the command-line task sources validate the strategy:
the argparse `choices` check accepts exactly the members of
`VALID_STRATEGIES`, while the structured-table resolver accepts any row whose
strategy cell is non-empty, producing a task whose strategy is the
lower-cased, stripped cell text with no membership check. -/
theorem c6_strategy_validation (s title l str : List Char) :
    (∀ r, cliStrategy s = some r → VALID_STRATEGIES.contains r = true) ∧
    (l ≠ [] → str ≠ [] →
      read_xlsx_tasks [⟨title, [(some l, some str)]⟩] =
        [⟨pyStrip l, pyLower (pyStrip str), title, 2⟩]) := by
  constructor
  · intro r h
    unfold cliStrategy at h
    by_cases hc : VALID_STRATEGIES.contains s = true
    · rw [if_pos hc] at h
      cases h
      exact hc
    · rw [if_neg hc] at h
      cases h
  · intro hl hs
    simp [read_xlsx_tasks, enumFrom, rowTask, hl, hs]

/-- Witness for the amended C6: the CLI check accepts "bfs", and a concrete
non-empty row resolves to its task with the cell text carried through. -/
theorem c6_witness :
    VALID_STRATEGIES.contains "bfs".data = true ∧
    read_xlsx_tasks [⟨"S".data, [(some "A1".data, some "zzz".data)]⟩] =
      [⟨pyStrip "A1".data, pyLower (pyStrip "zzz".data), "S".data, 2⟩] :=
  ⟨(c6_strategy_validation "bfs".data "S".data "A1".data "zzz".data).1 "bfs".data (by decide),
   (c6_strategy_validation "bfs".data "S".data "A1".data "zzz".data).2 (by decide) (by decide)⟩

/-- C7: a task whose level file cannot be resolved is recorded as skipped
(`(task, none)` — rendered "⚠️ Skipped", written back as no cells) without
the runner ever being invoked for it (`starts` counts `run_level` calls, one
process spawn each; it equals the number of resolved tasks only), no time is
charged (the skip happens before the runner's clock starts), and the batch
continues: the result list has exactly one entry per task, in task order. -/
theorem c7_unresolved_skipped (resolve : List Char → Option (List Char))
    (runner : List Char → List Char → Outcome) (tasks : List XTask) :
    (run_xlsx_loop resolve runner tasks).results =
        tasks.map (fun t => (t, (resolve t.level).map (fun p => runner p t.strategy))) ∧
    (run_xlsx_loop resolve runner tasks).skip_count =
        (tasks.filter (fun t => (resolve t.level).isNone)).length ∧
    (run_xlsx_loop resolve runner tasks).starts =
        (tasks.filter (fun t => (resolve t.level).isSome)).length := by
  unfold run_xlsx_loop
  obtain ⟨h1, h2, h3⟩ := run_xlsx_loop_aux tasks resolve runner ⟨[], 0, 0, 0, 0, 0⟩
  refine ⟨by simpa using h1, ?_, ?_⟩
  · rw [h2, List.countP_eq_length_filter]
    simp
  · rw [h3, List.countP_eq_length_filter]
    simp

/-- C8 counterexample: the write-back of a timed-out task writes the
placeholder text ">180" — a non-numeric, non-blank string — into the
elapsed-time column (column 4), contradicting "placeholder or free-form text
is never written into the numeric-typed store".  (The absent markers "-" of
the other two columns do become blank.) -/
theorem c8_counterexample :
    (write_xlsx_results [(⟨"SA01".data, "bfs".data, "Sheet1".data, 2⟩,
        some (run_level .timedOut 180))]).1 =
      [("Sheet1".data, 2, 3, Cell.blank),
       ("Sheet1".data, 2, 4, Cell.strVal ">180".data),
       ("Sheet1".data, 2, 5, Cell.blank)] ∧
    Cell.strVal ">180".data ≠ Cell.blank := by
  decide

/-- C8 (amended): write-back updates the three result columns of each
non-skipped originating row with `_to_number` of the generated / time /
solution-length fields (skipped rows receive no writes); absent values
(`None` or the "-" marker) are written as blank and numeric-coercible values
as numbers, but any other string — e.g. ">180" after a timeout — is written
back verbatim rather than blank. -/
theorem c8_writeback (s r : List Char) :
    (∀ trs : List (XTask × Option Outcome),
        (write_xlsx_results trs).1 = (trs.map rowWrites).flatten ∧
        (write_xlsx_results trs).2 = trs.countP (fun tr => tr.2.isSome)) ∧
    to_number none = Cell.blank ∧
    to_number (some "-".data) = Cell.blank ∧
    (to_number (some s) = Cell.strVal r → r = s) := by
  refine ⟨?_, rfl, by decide, ?_⟩
  · intro trs
    obtain ⟨h1, h2⟩ := foldl_writeStep trs ([], 0)
    exact ⟨by simpa using h1, by simpa using h2⟩
  · intro h
    simp only [to_number] at h
    by_cases hd : s = "-".data
    · rw [if_pos hd] at h
      cases h
    · rw [if_neg hd] at h
      by_cases hdot : containsSub ".".data s = true
      · rw [if_pos hdot] at h
        by_cases hf : pyFloatOk s = true
        · rw [if_pos hf] at h
          cases h
        · rw [if_neg hf] at h
          cases h
          rfl
      · rw [if_neg hdot] at h
        cases hint : pyInt s with
        | some n => rw [hint] at h; cases h
        | none => rw [hint] at h; cases h; rfl

/-- Witness for the amended C8: the non-coercible timeout marker is carried
through verbatim. -/
theorem c8_witness : (">180".data : List Char) = ">180".data :=
  (c8_writeback ">180".data ">180".data).2.2.2 (by decide)

/-- C9 counterexample: re-rendering the CI narrative report from the same
frozen batch result at two different render timestamps yields different
bytes — the report embeds `time.strftime(...)`, so rendering is not a
function of the batch result alone. -/
theorem c9_counterexample :
    buildReportCI "2024-01-01 00:00:00".data "SA".data "bfs".data 180
        [("SA01".data, run_level (.completed 0 "Found solution of length 12.".data [] "0.2".data) 180)] ≠
    buildReportCI "2024-01-01 00:00:01".data "SA".data "bfs".data 180
        [("SA01".data, run_level (.completed 0 "Found solution of length 12.".data [] "0.2".data) 180)] := by
  decide

/-- C9 (amended): report rendering is a deterministic pure function of the
frozen batch result *and* the render timestamp — two renders with the same
timestamp are byte-identical — and the timestamp genuinely appears in the
output (on the `**Date:**` header line), which is what breaks byte-identity
across renders at different times. -/
theorem c9_render_deterministic (ts fil strat : List Char) (tmo : Nat)
    (results : List (List Char × Outcome)) :
    buildReportCI ts fil strat tmo results = buildReportCI ts fil strat tmo results ∧
    containsSub ("**Date:** ".data ++ ts) (buildReportCI ts fil strat tmo results) = true :=
  ⟨rfl, buildReportCI_contains_date ts fil strat tmo results⟩
